import Mathlib

/-!
Verification of the qr-code-generator repository (src/app.py and src/qrgen.py).

The Python sources are shallowly embedded: pure string/color helpers become
Lean functions over String, raster images become a structure with a pixel
function, and the external libraries (qrcode, PIL) appear as an explicit
record of abstract primitives (ExtLib) threaded through the pipeline, so that
everything the repository itself computes is modelled faithfully while
library internals stay parameters.
-/

deriving instance DecidableEq for Except

/-- An RGBA pixel, as the 4-tuples produced by PIL getdata on an RGBA image. -/
abbrev Pixel := Nat × Nat × Nat × Nat

/-- The RGB components of a pixel (pixel[:3] in the source). -/
def rgbOf (p : Pixel) : Nat × Nat × Nat := (p.1, p.2.1, p.2.2.1)

/-- The alpha component of a pixel. -/
def alphaOf (p : Pixel) : Nat := p.2.2.2

/-- Python str.strip: drop whitespace from both ends. -/
def pyStrip (s : String) : String :=
  String.mk (((s.toList.dropWhile Char.isWhitespace).reverse.dropWhile
    Char.isWhitespace).reverse)

/-- Python value.startswith("#"). -/
def pyStartsWithHash (s : String) : Bool :=
  match s.toList with
  | '#' :: _ => true
  | _ => false

/-- Python str.upper (ASCII, which is all the app feeds it). -/
def pyUpper (s : String) : String :=
  String.mk (s.toList.map Char.toUpper)

/-- Python s[a:b] for 0 ≤ a ≤ b (the only slices the source uses). -/
def pySlice (s : String) (a b : Nat) : String :=
  String.mk ((s.toList.drop a).take (b - a))

/-- Value of a single hexadecimal digit, none if the character is not one. -/
def hexDigitVal (c : Char) : Option Nat :=
  if '0' ≤ c ∧ c ≤ '9' then some (c.toNat - '0'.toNat)
  else if 'a' ≤ c ∧ c ≤ 'f' then some (c.toNat - 'a'.toNat + 10)
  else if 'A' ≤ c ∧ c ≤ 'F' then some (c.toNat - 'A'.toNat + 10)
  else none

/-- Python int(s, 16): fails (ValueError) on the empty string or any
non-hex-digit character; signs, underscores and surrounding whitespace never
occur at the call sites in the source, so they are not modelled. -/
def pyIntHex (s : String) : Except String Nat :=
  match s.toList.foldl
      (fun acc c => acc.bind fun n => (hexDigitVal c).map fun d => 16 * n + d)
      (if s = "" then none else some 0) with
  | some n => Except.ok n
  | none => Except.error ("invalid literal for int() with base 16: " ++ s)

/-- The normalization step inside hex_or_default (src/app.py lines 30-32):
strip, then prepend a hash when missing. -/
def normalizeHex (value : String) : String :=
  let v := pyStrip value
  if pyStartsWithHash v then v else "#" ++ v

/-- hex_or_default (src/app.py lines 26-35): empty input gives the default;
otherwise normalize and keep the value only when its length is 4 or 7. -/
def hexOrDefault (value : String) (dflt : String) : String :=
  if value = "" then dflt
  else
    let v := normalizeHex value
    if v.toList.length = 4 ∨ v.toList.length = 7 then v else dflt

/-- The preset dictionary of apply_style_preset (src/app.py lines 57-64). -/
def presetLookup (s : String) : Option (String × String) :=
  if s = "gold" then some ("#b38b1b", "#faf5e6")
  else if s = "silver" then some ("#6f7c89", "#f5f5f7")
  else if s = "wedding_ivory" then some ("#C6A667", "#FBF7F2")
  else if s = "birthday" then some ("#E63946", "#F8EDFF")
  else if s = "minimal_tech" then some ("#000000", "#FFFFFF")
  else if s = "craft_beer" then some ("#8B4513", "#FFF8DC")
  else none

/-- apply_style_preset (src/app.py lines 51-69): a falsy preset name becomes
"custom"; a known preset overrides the colors, anything else passes them
through. -/
def applyStylePreset (stylePreset fgColor bgColor : String) : String × String :=
  let sp := if stylePreset = "" then "custom" else stylePreset
  match presetLookup sp with
  | some pair => pair
  | none => (fgColor, bgColor)

/-- The error-correction constants of the qrcode library. -/
inductive ECLevel where
  | L
  | M
  | Q
  | H
deriving DecidableEq, Repr

/-- The arguments a call of qrcode.QRCode receives. -/
structure QRCodeParams where
  version : Option Nat
  errorCorrection : ECLevel
  boxSize : Nat
  border : Nat
deriving DecidableEq, Repr

/-- The qrcode.QRCode arguments built by make_qr (src/app.py lines 311-316):
version=None, error_correction=ERROR_CORRECT_H. -/
def makeQrEncoderParams (boxSize border : Nat) : QRCodeParams :=
  { version := none, errorCorrection := ECLevel.H,
    boxSize := boxSize, border := border }

/-- The qrcode.QRCode arguments built by generate_qr (src/qrgen.py lines
30-35): version=None, error_correction=ERROR_CORRECT_M. -/
def generateQrEncoderParams (boxSize border : Nat) : QRCodeParams :=
  { version := none, errorCorrection := ECLevel.M,
    boxSize := boxSize, border := border }

/-- The transparency loop of make_qr (src/app.py lines 337-346) on the flat
getdata pixel list: the first pixel is the background sample; every pixel
whose RGB equals the sample RGB becomes (255, 255, 255, 0), all others are
kept. The nominal bg_color of the request is never read here. -/
def makeTransparentData (datas : List Pixel) : List Pixel :=
  match datas with
  | [] => []
  | bgPixel :: _ =>
    datas.map fun p => if rgbOf p = rgbOf bgPixel then (255, 255, 255, 0) else p

/-- A raster image: PIL mode string, dimensions, and a pixel function
(x across, y down). An RGB-mode image is represented with alpha 255. -/
structure Image where
  mode : String
  width : Nat
  height : Nat
  pix : Nat → Nat → Pixel

/-- A text bounding box as returned by ImageDraw.textbbox. -/
structure BBox where
  x0 : Int
  y0 : Int
  x1 : Int
  y1 : Int

/-- The content argument of the personalization functions: the initials
string for content_type text, or an upload (a file path to open, or an
already-opened PIL image). -/
inductive Content where
  | str (s : String)
  | image (img : Image)

/-- Python truthiness of the content argument: None and the empty string are
falsy; a nonempty path string and an opened image are truthy. -/
def contentTruthy : Option Content → Bool
  | none => false
  | some (Content.str s) => s ≠ ""
  | some (Content.image _) => true

/-- content.upper() requires a string; on anything else Python would raise
AttributeError. -/
def contentStr : Option Content → Except String String
  | some (Content.str s) => Except.ok s
  | _ => Except.error "AttributeError: upper"

/-- Conversion a pixel undergoes when written into an image of the given
mode: pasting into an RGB canvas drops the alpha channel. -/
def convertPx (mode : String) (p : Pixel) : Pixel :=
  if mode = "RGB" then (p.1, p.2.1, p.2.2.1, 255) else p

/-- img.convert("RGBA"): RGB pixels keep their channels with alpha 255
(already the representation used here). -/
def convertRGBA (img : Image) : Image :=
  { img with mode := "RGBA" }

/-- img.convert("RGB"): drops the alpha channel. -/
def convertRGB (img : Image) : Image :=
  { mode := "RGB", width := img.width, height := img.height,
    pix := fun x y => convertPx "RGB" (img.pix x y) }

/-- Image.new(mode, (w, h), color). -/
def newImage (mode : String) (w h : Nat) (fill : Pixel) : Image :=
  { mode := mode, width := w, height := h, pix := fun _ _ => fill }

/-- canvas.paste(img, (x0, y0)) with no mask: pixels of img land converted
to the canvas mode; everything else keeps the canvas pixel. -/
def pasteAt (canvas img : Image) (x0 y0 : Int) : Image :=
  { canvas with
    pix := fun x y =>
      if x0 ≤ (x : Int) ∧ (x : Int) < x0 + img.width
          ∧ y0 ≤ (y : Int) ∧ (y : Int) < y0 + img.height then
        convertPx canvas.mode (img.pix ((x : Int) - x0).toNat ((y : Int) - y0).toNat)
      else canvas.pix x y }

/-- img.putalpha(mask): replace the alpha plane. -/
def putalpha (img : Image) (mask : Nat → Nat → Nat) : Image :=
  { img with
    pix := fun x y =>
      ((img.pix x y).1, (img.pix x y).2.1, (img.pix x y).2.2.1, mask x y) }

/-- logo.split()[3]: the alpha plane of an image. -/
def alphaPlane (img : Image) : Nat → Nat → Nat :=
  fun x y => alphaOf (img.pix x y)

/-- The external primitives the source calls into (qrcode rendering, PIL
drawing, fonts, file opening, float geometry). The repository computes with
their results but never looks inside them, so they are abstract here. -/
structure ExtLib where
  /-- qr.make_image(fill_color, back_color).convert("RGBA") in make_qr. -/
  renderPng : QRCodeParams → String → String → Image
  /-- qr.make_image() with default colors in generate_qr. -/
  renderPngDefault : QRCodeParams → Image
  /-- PIL color-string interpretation, for Image.new fills. -/
  colorPx : String → Pixel
  /-- draw.textbbox((0, 0), text, font) at the given font size. -/
  textBBox : Nat → String → BBox
  /-- draw.text(pos, text, fill=colorString, font) at the given font size. -/
  drawText : Image → Int × Int → String → String → Nat → Image
  /-- draw.text with an RGBA-tuple fill (the easter-egg subtle color). -/
  drawTextA : Image → Int × Int → String → Pixel → Nat → Image
  /-- draw.ellipse(bounds, fill) with fill only. -/
  drawEllipseFill : Image → Int × Int × Int × Int → String → Image
  /-- draw.ellipse(bounds, fill, outline, width). -/
  drawEllipseOutline : Image → Int × Int × Int × Int → String → String → Nat → Image
  /-- The whole rounded-rectangle frame block of decorate_png_qr (src/app.py
  lines 263-274), whose geometry uses float arithmetic. -/
  drawFrame : Image → String → Image
  /-- The mask of make_circular: an L image with a filled ellipse. -/
  ellipseMask : Nat → Nat → Nat → Nat → Nat
  /-- ImageOps.fit(img, size, centering=(0.5, 0.5)). -/
  fitCenter : Image → Image
  /-- img.resize((w, h), LANCZOS). -/
  resize : Image → Nat → Nat → Image
  /-- Image.open(path). -/
  openImage : String → Image
  /-- int(n * (p / 100)) under Python float semantics. -/
  floorMulPercent : Nat → Nat → Nat
  /-- ImageEnhance.Brightness(alpha).enhance(0.15) on an alpha plane. -/
  enhance015 : (Nat → Nat → Nat) → Nat → Nat → Nat
  /-- img.paste(logo, pos, logo): alpha-masked compositing. -/
  pasteMasked : Image → Image → Int × Int → Image

/-- content if isinstance(content, Image.Image) else Image.open(content)
(src/app.py lines 117, 177, 235). -/
def contentImage (ext : ExtLib) : Option Content → Except String Image
  | some (Content.image i) => Except.ok i
  | some (Content.str s) => Except.ok (ext.openImage s)
  | none => Except.error "TypeError: open"

/-- make_circular (src/app.py lines 72-82): ellipse mask, center fit,
convert to RGBA, put the mask as alpha. -/
def makeCircular (ext : ExtLib) (img : Image) : Image :=
  let mask := ext.ellipseMask img.width img.height
  let output := ext.fitCenter img
  putalpha (convertRGBA output) mask

/-- The transparency loop of make_qr (src/app.py lines 337-346) seen on the
two-dimensional image: same policy as makeTransparentData, with getdata
order making datas[0] the pixel at (0, 0). -/
def imageTransparent (img : Image) : Image :=
  let bgPixel := img.pix 0 0
  { img with
    pix := fun x y =>
      if rgbOf (img.pix x y) = rgbOf bgPixel then (255, 255, 255, 0)
      else img.pix x y }

/-- add_minimal_personalization (src/app.py lines 85-135): extend the canvas
by a 100-pixel RGB band filled with bg_color, paste the QR at (0, 0), then
draw the content (shadowed caption, or badge) inside the band. -/
def addMinimalPersonalization (ext : ExtLib) (img : Image) (contentType : String)
    (content : Option Content) (fgColor bgColor : String) : Except String Image :=
  let width := img.width
  let height := img.height
  let newHeight := height + 100
  let canvas := pasteAt (newImage "RGB" width newHeight (ext.colorPx bgColor)) img 0 0
  if contentType = "text" && contentTruthy content then
    match contentStr content with
    | Except.error e => Except.error e
    | Except.ok s =>
      let text := pyUpper s
      let bb := ext.textBBox 48 text
      let textWidth := bb.x1 - bb.x0
      let textHeight := bb.y1 - bb.y0
      let x := ((width : Int) - textWidth).fdiv 2
      let y := (height : Int) + ((100 : Int) - textHeight).fdiv 2
      let canvas := ext.drawText canvas (x + 2, y + 2) text (fgColor ++ "40") 48
      Except.ok (ext.drawText canvas (x, y) text fgColor 48)
  else if (contentType = "logo" || contentType = "image") && contentTruthy content then
    match contentImage ext content with
    | Except.error e => Except.error e
    | Except.ok logo =>
      let badgeSize := ext.floorMulPercent 25 width
      let logo := ext.resize logo badgeSize badgeSize
      let logo := if contentType = "image" then makeCircular ext logo else logo
      let logoX := ((width : Int) - badgeSize).fdiv 2
      let logoY := (height : Int) + ((100 : Int) - badgeSize).fdiv 2
      let canvas := ext.drawEllipseFill canvas
        (logoX - 5, logoY - 5, logoX + badgeSize + 5, logoY + badgeSize + 5) bgColor
      Except.ok (if logo.mode = "RGBA" then ext.pasteMasked canvas logo (logoX, logoY)
        else pasteAt canvas logo logoX logoY)
  else
    Except.ok canvas

/-- add_focal_personalization (src/app.py lines 138-195): big initials or a
circular badge drawn over the center of the symbol. -/
def addFocalPersonalization (ext : ExtLib) (img : Image) (contentType : String)
    (content : Option Content) (fgColor bgColor : String) : Except String Image :=
  let width := img.width
  let height := img.height
  let centerX := (width : Int).fdiv 2
  let centerY := (height : Int).fdiv 2
  let safeRadius := ext.floorMulPercent 15 (min width height)
  if contentType = "text" && contentTruthy content then
    match contentStr content with
    | Except.error e => Except.error e
    | Except.ok s =>
      let text := String.mk ((pyUpper s).toList.take 3)
      let bb := ext.textBBox 120 text
      let textWidth := bb.x1 - bb.x0
      let textHeight := bb.y1 - bb.y0
      let circleRadius := (max textWidth textHeight).fdiv 2 + 20
      let img := ext.drawEllipseOutline img
        (centerX - circleRadius, centerY - circleRadius,
         centerX + circleRadius, centerY + circleRadius) bgColor fgColor 4
      let textX := centerX - textWidth.fdiv 2
      let textY := centerY - textHeight.fdiv 2
      Except.ok (ext.drawText img (textX, textY) text fgColor 120)
  else if (contentType = "logo" || contentType = "image") && contentTruthy content then
    match contentImage ext content with
    | Except.error e => Except.error e
    | Except.ok logo =>
      let logoSize := safeRadius * 2
      let logo := ext.resize logo logoSize logoSize
      let logo := makeCircular ext logo
      let img := ext.drawEllipseOutline img
        (centerX - (logoSize : Int).fdiv 2 - 10, centerY - (logoSize : Int).fdiv 2 - 10,
         centerX + (logoSize : Int).fdiv 2 + 10, centerY + (logoSize : Int).fdiv 2 + 10)
        bgColor fgColor 6
      let logoX := centerX - (logoSize : Int).fdiv 2
      let logoY := centerY - (logoSize : Int).fdiv 2
      Except.ok (ext.pasteMasked img logo (logoX, logoY))
  else
    Except.ok img

/-- add_easter_egg_personalization (src/app.py lines 198-254): low-alpha text
stamped at three fixed offsets, or a dimmed central watermark. The text
branch parses fg_color with the slices [1:3], [3:5], [5:7] and int(_, 16),
so a short hex color makes int() raise. -/
def addEasterEggPersonalization (ext : ExtLib) (img : Image) (contentType : String)
    (content : Option Content) (fgColor : String) : Except String Image :=
  let width := img.width
  let height := img.height
  if contentType = "text" && contentTruthy content then
    match contentStr content with
    | Except.error e => Except.error e
    | Except.ok s =>
      let text := pyUpper s
      let stamp := fun (subtle : Pixel) =>
        let positions : List (Int × Int) :=
          [((width : Int) - 80, (height : Int) - 20),
           (20, (height : Int).fdiv 2),
           ((width : Int).fdiv 2 - 30, 20)]
        Except.ok (positions.foldl
          (fun im pos => ext.drawTextA im pos text subtle 8) img)
      if pyStartsWithHash fgColor then
        match pyIntHex (pySlice fgColor 1 3) with
        | Except.error e => Except.error e
        | Except.ok r =>
          match pyIntHex (pySlice fgColor 3 5) with
          | Except.error e => Except.error e
          | Except.ok g =>
            match pyIntHex (pySlice fgColor 5 7) with
            | Except.error e => Except.error e
            | Except.ok b => stamp (r, g, b, 80)
      else
        stamp (0, 0, 0, 80)
  else if (contentType = "logo" || contentType = "image") && contentTruthy content then
    match contentImage ext content with
    | Except.error e => Except.error e
    | Except.ok logo =>
      let watermarkSize := ext.floorMulPercent 40 (min width height)
      let logo := ext.resize logo watermarkSize watermarkSize
      let logo := if logo.mode ≠ "RGBA" then convertRGBA logo else logo
      let logo := putalpha logo (ext.enhance015 (alphaPlane logo))
      let logoX := ((width : Int) - watermarkSize).fdiv 2
      let logoY := ((height : Int) - watermarkSize).fdiv 2
      let img := convertRGBA img
      let img := ext.pasteMasked img logo (logoX, logoY)
      Except.ok (convertRGB img)
  else
    Except.ok img

/-- decorate_png_qr (src/app.py lines 257-284): optional frame first (the
copy of the image is identity in this pure model), then dispatch on the
personalization mode. -/
def decoratePngQr (ext : ExtLib) (img : Image) (fgColor : String)
    (addFrame : Bool) (personalizationMode contentType : String)
    (content : Option Content) (bgColor : String) : Except String Image :=
  let img := if addFrame then ext.drawFrame img fgColor else img
  if personalizationMode = "minimal" then
    addMinimalPersonalization ext img contentType content fgColor bgColor
  else if personalizationMode = "focal" then
    addFocalPersonalization ext img contentType content fgColor bgColor
  else if personalizationMode = "easter_egg" then
    addEasterEggPersonalization ext img contentType content fgColor
  else
    Except.ok img

/-- The validation step of make_qr (src/app.py lines 304-305). -/
def validateData (data : String) : Except String Unit :=
  if data = "" then Except.error "No data provided" else Except.ok ()

/-- The result body of make_qr: an SVG document (carrying its fill and
background colors) or a decorated raster image. -/
inductive QrOutput where
  | svg (fill : String) (back : String)
  | png (img : Image)

/-- make_qr (src/app.py lines 287-354): validate, resolve colors, encode at
the fixed parameters, then either emit the color-only SVG or render the
raster and run transparency and decoration, and pair the result with its
suggested filename. -/
def makeQr (ext : ExtLib) (data : String) (boxSize border : Nat)
    (fgColor bgColor : String) (transparentBg : Bool) (imageFormat : String)
    (stylePreset : String) (addFrame : Bool) (personalizationMode : String)
    (contentType : String) (content : Option Content) :
    Except String (QrOutput × String) :=
  match validateData data with
  | Except.error e => Except.error e
  | Except.ok _ =>
    let fg := hexOrDefault fgColor "#000000"
    let bg := hexOrDefault bgColor "#ffffff"
    let pair := applyStylePreset stylePreset fg bg
    let fg := pair.1
    let bg := pair.2
    let params := makeQrEncoderParams boxSize border
    if imageFormat = "svg" then
      Except.ok (QrOutput.svg fg (if transparentBg then "transparent" else bg),
        "qr-code.svg")
    else
      let img := ext.renderPng params fg bg
      let img := if transparentBg then imageTransparent img else img
      if addFrame || personalizationMode ≠ "none" then
        match decoratePngQr ext img fg addFrame personalizationMode
            contentType content bg with
        | Except.error e => Except.error e
        | Except.ok img => Except.ok (QrOutput.png img, "qr-code.png")
      else
        Except.ok (QrOutput.png img, "qr-code.png")

/-- generate_qr (src/qrgen.py lines 18-45): validate, then render with the
CLI encoder parameters and default colors (file saving is outside the
core). -/
def generateQr (ext : ExtLib) (data : String) (boxSize border : Nat) :
    Except String Image :=
  if data = "" then Except.error "No data provided to encode in QR code."
  else Except.ok (ext.renderPngDefault (generateQrEncoderParams boxSize border))

/-- A small concrete 2-by-2 RGBA image used to instantiate theorems. -/
def img0 : Image :=
  { mode := "RGBA", width := 2, height := 2, pix := fun _ _ => (0, 0, 0, 255) }

/-- A concrete instantiation of the external primitives, used to evaluate
the pipeline on closed inputs. -/
def extLib0 : ExtLib :=
  { renderPng := fun _ _ _ => img0
    renderPngDefault := fun _ => img0
    colorPx := fun _ => (255, 255, 255, 255)
    textBBox := fun _ _ => { x0 := 0, y0 := 0, x1 := 10, y1 := 10 }
    drawText := fun i _ _ _ _ => i
    drawTextA := fun i _ _ _ _ => i
    drawEllipseFill := fun i _ _ => i
    drawEllipseOutline := fun i _ _ _ _ => i
    drawFrame := fun i _ => i
    ellipseMask := fun _ _ _ _ => 255
    fitCenter := fun i => i
    resize := fun i _ _ => i
    openImage := fun _ => img0
    floorMulPercent := fun _ n => n / 4
    enhance015 := fun a => a
    pasteMasked := fun i _ _ => i }

/-- Height of the image inside a decoration result (0 for an error). -/
def resultHeight : Except String Image → Nat
  | Except.ok i => i.height
  | Except.error _ => 0

example : hexOrDefault "abcd123" "#000000" = "#000000" := by decide
example : hexOrDefault "" "#ffffff" = "#ffffff" := by decide
example : hexOrDefault "#abc" "#000000" = "#abc" := by decide
example : pyIntHex "ab" = Except.ok 171 := by decide
example : pyIntHex "c" = Except.ok 12 := by decide
example : pyIntHex "" = Except.error "invalid literal for int() with base 16: " := by decide
example : applyStylePreset "gold" "#123456" "#654321" = ("#b38b1b", "#faf5e6") := by decide
example : applyStylePreset "classic" "#123456" "#654321" = ("#123456", "#654321") := by decide

/-- The normalized color always starts with a hash: either the stripped
value already did, or one was prepended. -/
theorem normalizeHex_startsWith (v : String) :
    pyStartsWithHash (normalizeHex v) = true := by
  unfold normalizeHex
  by_cases hc : pyStartsWithHash (pyStrip v) = true
  · rw [if_pos hc]; exact hc
  · simp only [hc, Bool.false_eq_true, if_false]
    have hdata : ("#" ++ pyStrip v).toList = '#' :: (pyStrip v).toList := by
      show ("#" ++ pyStrip v).data = '#' :: (pyStrip v).data
      rw [String.data_append]
      rfl
    unfold pyStartsWithHash
    rw [hdata]
    rfl

/-- The custom preset passes any colors through. -/
theorem applyStylePreset_custom (a b : String) :
    applyStylePreset "custom" a b = (a, b) := by
  simp [applyStylePreset, presetLookup]

/-- When hex_or_default returns a 4-character value and the default has a
different length, the result is the normalized input (so it starts with a
hash). -/
theorem hexOrDefault_length_four (v d : String) (hd : d.length ≠ 4)
    (h4 : (hexOrDefault v d).length = 4) :
    hexOrDefault v d = normalizeHex v := by
  by_cases hv : v = ""
  · subst hv
    simp only [hexOrDefault, if_pos rfl] at h4
    exact absurd h4 hd
  · simp only [hexOrDefault, if_neg hv] at h4 ⊢
    by_cases hlen : ((normalizeHex v).toList.length = 4 ∨
        (normalizeHex v).toList.length = 7)
    · rw [if_pos hlen]
    · rw [if_neg hlen] at h4
      exact absurd h4 hd

/-- C1 (counterexample): the CLI encoder parameters built by generate_qr
(src/qrgen.py line 32) use ERROR_CORRECT_M, not the highest tier H that the
claim asserts for every render. -/
theorem c1_counterexample :
    (generateQrEncoderParams 10 4).errorCorrection ≠ ECLevel.H := by
  decide

/-- C1 (amended): the web pipeline make_qr always passes the highest
error-correction tier H to the encoder, but the CLI generate_qr passes the
medium tier M. -/
theorem c1_error_correction_levels :
    ∀ boxSize border : Nat,
      (makeQrEncoderParams boxSize border).errorCorrection = ECLevel.H ∧
      (generateQrEncoderParams boxSize border).errorCorrection = ECLevel.M :=
  fun _ _ => ⟨rfl, rfl⟩

/-- C2: every known preset resolves to exactly its fixed table pair,
whatever colors are supplied, and an unknown or custom preset passes the
supplied colors through unchanged. -/
theorem c2_style_preset_table :
    ∀ fg bg sp : String, presetLookup sp = none →
      applyStylePreset sp fg bg = (fg, bg) ∧
      applyStylePreset "gold" fg bg = ("#b38b1b", "#faf5e6") ∧
      applyStylePreset "silver" fg bg = ("#6f7c89", "#f5f5f7") ∧
      applyStylePreset "wedding_ivory" fg bg = ("#C6A667", "#FBF7F2") ∧
      applyStylePreset "birthday" fg bg = ("#E63946", "#F8EDFF") ∧
      applyStylePreset "minimal_tech" fg bg = ("#000000", "#FFFFFF") ∧
      applyStylePreset "craft_beer" fg bg = ("#8B4513", "#FFF8DC") := by
  intro fg bg sp h
  refine ⟨?_, ?_, ?_, ?_, ?_, ?_, ?_⟩
  · by_cases hsp : sp = ""
    · subst hsp; simp [applyStylePreset, presetLookup]
    · simp [applyStylePreset, hsp, h]
  all_goals simp [applyStylePreset, presetLookup]

/-- C2 (witness): the unknown preset name classic passes colors through,
by the general theorem. -/
theorem c2_witness :
    applyStylePreset "classic" "#123456" "#abcdef" = ("#123456", "#abcdef") :=
  (c2_style_preset_table "#123456" "#abcdef" "classic" (by decide)).1

/-- C3: hex_or_default returns the default on an empty value; on a nonempty
value it strips, prepends a hash when missing (the normalized value always
starts with a hash), keeps the normalized value when its length is 4 or 7,
and silently falls back to the default otherwise; in particular on the three
spec examples. -/
theorem c3_hex_or_default :
    (∀ d, hexOrDefault "" d = d) ∧
    (∀ v d, v ≠ "" →
      (((normalizeHex v).length = 4 ∨ (normalizeHex v).length = 7) →
        hexOrDefault v d = normalizeHex v) ∧
      (¬((normalizeHex v).length = 4 ∨ (normalizeHex v).length = 7) →
        hexOrDefault v d = d)) ∧
    (∀ v, pyStartsWithHash (normalizeHex v) = true) ∧
    hexOrDefault "abcd123" "#000000" = "#000000" ∧
    hexOrDefault "" "#ffffff" = "#ffffff" ∧
    hexOrDefault "#abc" "#000000" = "#abc" := by
  refine ⟨?_, ?_, ?_, by decide, by decide, by decide⟩
  · intro d; simp [hexOrDefault]
  · intro v d hv
    constructor <;> intro h <;> simp [hexOrDefault, hv, h]
  · exact normalizeHex_startsWith

/-- C3 (witness): a bare six-digit color gets a hash prepended and is
accepted, by the general theorem. -/
theorem c3_witness :
    hexOrDefault "ffffff" "#000000" = normalizeHex "ffffff" :=
  (c3_hex_or_default.2.1 "ffffff" "#000000" (by decide)).1 (by decide)

/-- C4: the transparency transform keeps the pixel count, samples the first
pixel of the data (the image origin) as the background reference, maps every
pixel whose RGB equals that sample to the fully transparent
(255, 255, 255, 0), and keeps every other pixel unchanged, alpha included;
it takes no bg_color argument at all. -/
theorem c4_transparency_pointwise :
    ∀ (p0 : Pixel) (rest : List Pixel) (i : Nat),
      (makeTransparentData (p0 :: rest)).length = (p0 :: rest).length ∧
      (makeTransparentData (p0 :: rest))[i]? =
        ((p0 :: rest)[i]?).map
          (fun p => if rgbOf p = rgbOf p0 then (255, 255, 255, 0) else p) := by
  intro p0 rest i
  refine ⟨by simp [makeTransparentData], ?_⟩
  simp only [makeTransparentData, List.getElem?_map]

/-- C9: an empty data string makes make_qr fail with the EmptyInputError
message before any output is produced, makes generate_qr fail with its own
message, and any nonempty data passes the validation step. -/
theorem c9_empty_data :
    (∀ (ext : ExtLib) (bs bd : Nat) (fgc bgc : String) (tb : Bool)
        (fmt sp : String) (fr : Bool) (pm ct : String) (cont : Option Content),
      makeQr ext "" bs bd fgc bgc tb fmt sp fr pm ct cont =
        Except.error "No data provided") ∧
    (∀ (ext : ExtLib) (bs bd : Nat),
      generateQr ext "" bs bd =
        Except.error "No data provided to encode in QR code.") ∧
    (∀ data : String, data ≠ "" → validateData data = Except.ok ()) := by
  refine ⟨?_, ?_, ?_⟩
  · intros; simp [makeQr, validateData]
  · intros; simp [generateQr]
  · intro d hd; simp [validateData, hd]

/-- C9 (witness): the empty request fails and a concrete URL passes
validation, by the general theorem. -/
theorem c9_witness :
    makeQr extLib0 "" 10 4 "#000000" "#ffffff" false "png" "custom" false
        "none" "text" none = Except.error "No data provided" ∧
    validateData "https://example.com" = Except.ok () :=
  ⟨c9_empty_data.1 extLib0 10 4 "#000000" "#ffffff" false "png" "custom"
      false "none" "text" none,
   c9_empty_data.2.2 "https://example.com" (by decide)⟩

/-- C5 (counterexample): the transparency transform is not idempotent. On a
red origin pixel with an opaque white pixel beside it, the first pass leaves
the opaque white pixel alone but rewrites the sample to white, so the second
pass erases the opaque white pixel. -/
theorem c5_counterexample :
    makeTransparentData (makeTransparentData
        [(((255 : Nat), (0 : Nat), (0 : Nat), (255 : Nat)) : Pixel), (255, 255, 255, 255)]) ≠
      makeTransparentData
        [(((255 : Nat), (0 : Nat), (0 : Nat), (255 : Nat)) : Pixel), (255, 255, 255, 255)] := by
  decide

/-- C5 (amended): the transform is idempotent on every image in which each
pixel with RGB (255, 255, 255) either shares the RGB of the sampled origin
pixel or already has alpha 0 (in particular whenever the background sample
itself is white). The first pass rewrites all matched pixels, the sample
included, to (255, 255, 255, 0), so the second pass keys on white; a
non-background opaque white pixel would be erased by it, and the hypothesis
excludes exactly those. -/
theorem c5_transparency_idempotent (p0 : Pixel) (rest : List Pixel)
    (h : ∀ p ∈ p0 :: rest, rgbOf p = (255, 255, 255) →
      rgbOf p = rgbOf p0 ∨ alphaOf p = 0) :
    makeTransparentData (makeTransparentData (p0 :: rest)) =
      makeTransparentData (p0 :: rest) := by
  have hinner : makeTransparentData (p0 :: rest) =
      (((255 : Nat), (255 : Nat), (255 : Nat), (0 : Nat)) : Pixel) ::
        rest.map (fun p => if rgbOf p = rgbOf p0
          then (((255 : Nat), (255 : Nat), (255 : Nat), (0 : Nat)) : Pixel) else p) := by
    simp [makeTransparentData]
  rw [hinner]
  simp only [makeTransparentData, List.map_cons, List.map_map]
  refine congrArg₂ _ (by simp) ?_
  apply List.map_congr_left
  intro p hp
  by_cases hpp : rgbOf p = rgbOf p0
  · simp [Function.comp, hpp]
  · simp only [Function.comp_apply, if_neg hpp]
    by_cases hw : rgbOf p = (255, 255, 255)
    · rcases h p (List.mem_cons_of_mem p0 hp) hw with h1 | h2
      · exact absurd h1 hpp
      · obtain ⟨r, g, b, a⟩ := p
        simp only [rgbOf, Prod.mk.injEq] at hw
        simp only [alphaOf] at h2
        obtain ⟨hr, hg, hb⟩ := hw
        subst hr; subst hg; subst hb; subst h2
        simp [rgbOf]
    · rw [if_neg]
      intro hcontra
      exact hw (by simpa [rgbOf] using hcontra)

/-- C5 (witness): a black origin with an already fully transparent white
pixel satisfies the hypothesis, and the transform is idempotent there, by
the general theorem. -/
theorem c5_witness :
    makeTransparentData (makeTransparentData
        [(((0 : Nat), (0 : Nat), (0 : Nat), (255 : Nat)) : Pixel), (255, 255, 255, 0)]) =
      makeTransparentData
        [(((0 : Nat), (0 : Nat), (0 : Nat), (255 : Nat)) : Pixel), (255, 255, 255, 0)] :=
  c5_transparency_idempotent _ _ (by decide)

/-- C6: for output_format svg the pipeline returns the color-only vector
output and the svg filename whatever add_frame and personalization_mode say:
the modules carry the resolved foreground color, and the background is the
literal transparent fill when transparent_background is set, the resolved
background color otherwise. -/
theorem c6_svg_color_only :
    ∀ (ext : ExtLib) (data : String) (bs bd : Nat) (fgc bgc : String)
      (tb : Bool) (sp : String) (fr : Bool) (pm ct : String)
      (content : Option Content), data ≠ "" →
      makeQr ext data bs bd fgc bgc tb "svg" sp fr pm ct content =
        Except.ok
          (QrOutput.svg
            (applyStylePreset sp (hexOrDefault fgc "#000000")
              (hexOrDefault bgc "#ffffff")).1
            (if tb then "transparent"
             else (applyStylePreset sp (hexOrDefault fgc "#000000")
               (hexOrDefault bgc "#ffffff")).2),
           "qr-code.svg") := by
  intro ext data bs bd fgc bgc tb sp fr pm ct content hdata
  simp [makeQr, validateData, hdata]

/-- C6 (witness): a gold svg request with transparent background and with
frame and focal personalization both requested still yields the bare gold
vector output, by the general theorem. -/
theorem c6_witness :
    makeQr extLib0 "https://example.com" 10 4 "#123456" "#654321" true "svg"
        "gold" true "focal" "text" (some (Content.str "AB")) =
      Except.ok (QrOutput.svg "#b38b1b" "transparent", "qr-code.svg") := by
  have h := c6_svg_color_only extLib0 "https://example.com" 10 4 "#123456"
    "#654321" true "gold" true "focal" "text" (some (Content.str "AB"))
    (by decide)
  have hx : (applyStylePreset "gold" (hexOrDefault "#123456" "#000000")
      (hexOrDefault "#654321" "#ffffff")).1 = "#b38b1b" := by decide
  rw [h, hx]
  rfl

/-- C7 (counterexample): with absent content, minimal-mode personalization
does not return the input image: the canvas is still extended by the
100-pixel band, so the 2-pixel-high input comes back 102 pixels high. -/
theorem c7_counterexample :
    addMinimalPersonalization extLib0 img0 "text" none "#000000" "#ffffff" ≠
      Except.ok img0 := by
  intro hEq
  have h2 := congrArg resultHeight hEq
  simp [addMinimalPersonalization, contentTruthy, resultHeight, pasteAt,
    newImage, img0] at h2

/-- C7 (amended): with absent or empty content no mode composites content
and none errors; focal and easter_egg return the input image unchanged,
while minimal still returns the input pasted into the canvas extended by the
100-pixel background band (so its result differs from the input image). -/
theorem c7_no_content (ext : ExtLib) (img : Image) (ct : String)
    (content : Option Content) (fg bg : String)
    (h : contentTruthy content = false) :
    addFocalPersonalization ext img ct content fg bg = Except.ok img ∧
    addEasterEggPersonalization ext img ct content fg = Except.ok img ∧
    addMinimalPersonalization ext img ct content fg bg =
      Except.ok (pasteAt
        (newImage "RGB" img.width (img.height + 100) (ext.colorPx bg))
        img 0 0) := by
  refine ⟨?_, ?_, ?_⟩
  · simp [addFocalPersonalization, h]
  · simp [addEasterEggPersonalization, h]
  · simp [addMinimalPersonalization, h]

/-- C7 (witness): focal mode with empty text content returns the input
unchanged, by the general theorem. -/
theorem c7_witness :
    addFocalPersonalization extLib0 img0 "text" (some (Content.str ""))
        "#000000" "#ffffff" = Except.ok img0 :=
  (c7_no_content extLib0 img0 "text" (some (Content.str "")) "#000000"
    "#ffffff" (by decide)).1

/-- C10: a raster request with easter_egg text personalization fails as a
whole whenever the resolved foreground color has 4 characters (the
short-form colors hex_or_default accepts): the slice [5:7] is then empty
and int of an empty string raises, whatever the other parameters are. For
the representative #abc, the first two slices parse as ab and c and the
error is exactly the empty-literal one. -/
theorem c10_easter_egg_short_hex :
    ∀ (ext : ExtLib) (data s fgc bgc : String) (bs bd : Nat) (tb fr : Bool),
      data ≠ "" → s ≠ "" → (hexOrDefault fgc "#000000").length = 4 →
      (∃ msg, makeQr ext data bs bd fgc bgc tb "png" "custom" fr "easter_egg"
          "text" (some (Content.str s)) = Except.error msg) ∧
      makeQr ext data bs bd "#abc" bgc tb "png" "custom" fr "easter_egg"
          "text" (some (Content.str s)) =
        Except.error "invalid literal for int() with base 16: " := by
  intro ext data s fgc bgc bs bd tb fr hdata hs h4
  constructor
  · set fg := hexOrDefault fgc "#000000" with hfg
    have hstart : pyStartsWithHash fg = true := by
      rw [hfg, hexOrDefault_length_four fgc "#000000" (by decide) h4]
      exact normalizeHex_startsWith fgc
    have hlen4 : fg.toList.length = 4 := h4
    have h5 : pySlice fg 5 7 = "" := by
      unfold pySlice
      rw [List.drop_eq_nil_of_le (by omega)]
      rfl
    have heast : ∀ i : Image, ∃ msg,
        addEasterEggPersonalization ext i "text" (some (Content.str s)) fg =
          Except.error msg := by
      intro i
      rcases h1 : pyIntHex (pySlice fg 1 3) with e1 | r
      · exact ⟨e1, by simp [addEasterEggPersonalization, contentTruthy,
          contentStr, hs, hstart, h1]⟩
      · rcases h2 : pyIntHex (pySlice fg 3 5) with e2 | g
        · exact ⟨e2, by simp [addEasterEggPersonalization, contentTruthy,
            contentStr, hs, hstart, h1, h2]⟩
        · refine ⟨"invalid literal for int() with base 16: ", ?_⟩
          have h3 : pyIntHex (pySlice fg 5 7) =
              Except.error "invalid literal for int() with base 16: " := by
            rw [h5]; decide
          simp [addEasterEggPersonalization, contentTruthy, contentStr, hs,
            hstart, h1, h2, h3]
    have hdec : ∀ i : Image, ∃ msg,
        decoratePngQr ext i fg fr "easter_egg" "text"
          (some (Content.str s)) (hexOrDefault bgc "#ffffff") =
          Except.error msg := by
      intro i
      obtain ⟨msg, hmsg⟩ := heast (if fr then ext.drawFrame i fg else i)
      exact ⟨msg, by simp [decoratePngQr, hmsg]⟩
    have hps := applyStylePreset_custom fg (hexOrDefault bgc "#ffffff")
    obtain ⟨msg, hmsg⟩ := hdec
      (if tb then
        imageTransparent (ext.renderPng (makeQrEncoderParams bs bd) fg
          (hexOrDefault bgc "#ffffff"))
       else ext.renderPng (makeQrEncoderParams bs bd) fg
          (hexOrDefault bgc "#ffffff"))
    refine ⟨msg, ?_⟩
    simp [makeQr, validateData, hdata, ← hfg, hps, hmsg]
  · have hfg : hexOrDefault "#abc" "#000000" = "#abc" := by decide
    have hpair : ∀ b, applyStylePreset "custom" "#abc" b = ("#abc", b) := by
      intro b; simp [applyStylePreset, presetLookup]
    have heast : ∀ i : Image,
        addEasterEggPersonalization ext i "text" (some (Content.str s))
          "#abc" = Except.error "invalid literal for int() with base 16: " := by
      intro i
      have h1 : pyIntHex (pySlice "#abc" 1 3) = Except.ok 171 := by decide
      have h2 : pyIntHex (pySlice "#abc" 3 5) = Except.ok 12 := by decide
      have h3 : pyIntHex (pySlice "#abc" 5 7) =
          Except.error "invalid literal for int() with base 16: " := by decide
      have hstart : pyStartsWithHash "#abc" = true := by decide
      simp [addEasterEggPersonalization, contentTruthy, contentStr, hs,
        hstart, h1, h2, h3]
    simp [makeQr, validateData, hdata, hfg, hpair, decoratePngQr, heast]

/-- C10 (witness): the concrete failing request, by the general theorem. -/
theorem c10_witness :
    makeQr extLib0 "https://example.com" 10 4 "#abc" "#ffffff" false "png"
        "custom" false "easter_egg" "text" (some (Content.str "HI")) =
      Except.error "invalid literal for int() with base 16: " :=
  (c10_easter_egg_short_hex extLib0 "https://example.com" "HI" "#abc"
    "#ffffff" 10 4 false false (by decide) (by decide) (by decide)).2

/-- C8: for the default raster request with minimal text personalization AB,
the output is the base render of the same request extended by exactly the
100-pixel band (same width), and every pixel of the base region is unchanged
from the non-personalized render. Hypotheses state what the PIL primitives
guarantee: the caption fits the band, text drawing touches no row above its
anchor and keeps the canvas size, and the RGBA-converted base render has
alpha 255 everywhere. -/
theorem c8_minimal_text_band
    (ext : ExtLib) (data : String) (hdata : data ≠ "")
    (hth : (ext.textBBox 48 "AB").y1 - (ext.textBBox 48 "AB").y0 ≤ 100)
    (hloc : ∀ (img : Image) (pos : Int × Int) (text color : String)
      (size : Nat) (x y : Nat), (y : Int) < pos.2 →
      (ext.drawText img pos text color size).pix x y = img.pix x y)
    (hdims : ∀ (img : Image) (pos : Int × Int) (text color : String)
      (size : Nat),
      (ext.drawText img pos text color size).width = img.width ∧
      (ext.drawText img pos text color size).height = img.height)
    (halpha : ∀ x y : Nat,
      alphaOf ((ext.renderPng (makeQrEncoderParams 10 4) "#000000"
        "#ffffff").pix x y) = 255) :
    makeQr ext data 10 4 "#000000" "#ffffff" false "png" "custom" false
        "none" "text" (some (Content.str "AB")) =
      Except.ok (QrOutput.png
        (ext.renderPng (makeQrEncoderParams 10 4) "#000000" "#ffffff"),
        "qr-code.png") ∧
    ∃ pimg : Image,
      makeQr ext data 10 4 "#000000" "#ffffff" false "png" "custom" false
          "minimal" "text" (some (Content.str "AB")) =
        Except.ok (QrOutput.png pimg, "qr-code.png") ∧
      pimg.width =
        (ext.renderPng (makeQrEncoderParams 10 4) "#000000" "#ffffff").width ∧
      pimg.height =
        (ext.renderPng (makeQrEncoderParams 10 4) "#000000" "#ffffff").height
          + 100 ∧
      ∀ x y : Nat,
        x < (ext.renderPng (makeQrEncoderParams 10 4) "#000000"
          "#ffffff").width →
        y < (ext.renderPng (makeQrEncoderParams 10 4) "#000000"
          "#ffffff").height →
        pimg.pix x y =
          (ext.renderPng (makeQrEncoderParams 10 4) "#000000" "#ffffff").pix
            x y := by
  have hfg : hexOrDefault "#000000" "#000000" = "#000000" := by decide
  have hbg : hexOrDefault "#ffffff" "#ffffff" = "#ffffff" := by decide
  have hpair : applyStylePreset "custom" "#000000" "#ffffff" =
      ("#000000", "#ffffff") := by decide
  have hup : pyUpper "AB" = "AB" := by decide
  have hW : ∀ i p t c s, (ext.drawText i p t c s).width = i.width :=
    fun i p t c s => (hdims i p t c s).1
  have hH : ∀ i p t c s, (ext.drawText i p t c s).height = i.height :=
    fun i p t c s => (hdims i p t c s).2
  set base := ext.renderPng (makeQrEncoderParams 10 4) "#000000" "#ffffff"
    with hbase
  constructor
  · simp [makeQr, validateData, hdata, hfg, hbg, hpair, ← hbase]
  · have hmin : addMinimalPersonalization ext base "text"
        (some (Content.str "AB")) "#000000" "#ffffff" =
        Except.ok (ext.drawText
          (ext.drawText
            (pasteAt
              (newImage "RGB" base.width (base.height + 100)
                (ext.colorPx "#ffffff"))
              base 0 0)
            ((((base.width : Int) -
                ((ext.textBBox 48 "AB").x1 - (ext.textBBox 48 "AB").x0)).fdiv 2)
              + 2,
             ((base.height : Int) +
                (((100 : Int) -
                  ((ext.textBBox 48 "AB").y1 -
                    (ext.textBBox 48 "AB").y0)).fdiv 2)) + 2)
            "AB" ("#000000" ++ "40") 48)
          ((((base.width : Int) -
              ((ext.textBBox 48 "AB").x1 - (ext.textBBox 48 "AB").x0)).fdiv 2),
           ((base.height : Int) +
              (((100 : Int) -
                ((ext.textBBox 48 "AB").y1 -
                  (ext.textBBox 48 "AB").y0)).fdiv 2)))
          "AB" "#000000" 48) := by
      simp [addMinimalPersonalization, contentTruthy, contentStr, hup]
    have hbridge : ∀ T : Image,
        addMinimalPersonalization ext base "text" (some (Content.str "AB"))
          "#000000" "#ffffff" = Except.ok T →
        makeQr ext data 10 4 "#000000" "#ffffff" false "png" "custom" false
            "minimal" "text" (some (Content.str "AB")) =
          Except.ok (QrOutput.png T, "qr-code.png") := by
      intro T hT
      simp [makeQr, validateData, hdata, hfg, hbg, hpair, decoratePngQr,
        ← hbase, hT]
    refine ⟨_, hbridge _ hmin, ?_, ?_, ?_⟩
    · simp [hW, pasteAt, newImage]
    · simp [hH, pasteAt, newImage]
    · intro x y hx hy
      have hx' : (x : Int) < (base.width : Int) := by exact_mod_cast hx
      have hy' : (y : Int) < (base.height : Int) := by exact_mod_cast hy
      have hband : (0 : Int) ≤
          ((100 : Int) -
            ((ext.textBBox 48 "AB").y1 - (ext.textBBox 48 "AB").y0)).fdiv 2 :=
        Int.fdiv_nonneg (by omega) (by norm_num)
      rw [hloc _ _ _ _ _ x y (by dsimp only; omega)]
      rw [hloc _ _ _ _ _ x y (by dsimp only; omega)]
      rcases hq : base.pix x y with ⟨r, g, b, a⟩
      have ha := halpha x y
      rw [hq] at ha
      simp only [alphaOf] at ha
      simp [pasteAt, newImage, hx', hy', hq, convertPx, ha]
      intro hcontra
      exact absurd (hcontra hx) (by omega)

/-- C8 (witness): on the concrete primitives, the non-personalized request
renders the base image, by the general theorem. -/
theorem c8_witness :
    makeQr extLib0 "x" 10 4 "#000000" "#ffffff" false "png" "custom" false
        "none" "text" (some (Content.str "AB")) =
      Except.ok (QrOutput.png
        (extLib0.renderPng (makeQrEncoderParams 10 4) "#000000" "#ffffff"),
        "qr-code.png") :=
  (c8_minimal_text_band extLib0 "x" (by decide) (by decide)
    (fun _ _ _ _ _ _ _ _ => rfl) (fun _ _ _ _ _ => ⟨rfl, rfl⟩)
    (fun _ _ => rfl)).1
